import Mathlib

/-!
Verification of the scenario-execution engine of `api_tester.py`.

The development shallowly embeds the Python module `src/api_tester.py`:
Python JSON-like values become the inductive type `JVal`, Python dicts
become association lists (first occurrence wins on lookup, insertion is
cons), machine behaviour such as truthiness and `str()` rendering is
modelled explicitly, and the HTTP transport is an oracle function
supplied as a parameter.  Fallible code returns `Option`/`Except`.
-/

namespace ApiTester

/-- Python/JSON-like values: the universe over which `api_tester.py`
operates (scenario structures, config mappings, response bodies).
Numbers are modelled as integers; no claim involves floats. -/
inductive JVal where
  | null : JVal
  | bool : Bool → JVal
  | num : Int → JVal
  | str : String → JVal
  | arr : List JVal → JVal
  | obj : List (String × JVal) → JVal
deriving Repr, Inhabited

/-- First-occurrence association-list lookup: the model of Python
`dict` lookup (`d[k]` / `d.get(k)`); insertion is modelled by cons, so
the first occurrence is the most recent binding. -/
def assocFind (k : String) : List (String × JVal) → Option JVal
  | [] => none
  | (k2, v) :: rest => if k2 = k then some v else assocFind k rest

/-- Model of Python `k in d`. -/
def hasK (k : String) (d : List (String × JVal)) : Bool :=
  (assocFind k d).isSome

/-- Model of Python `d.get(k, default)` on a `JVal` that is expected to
be a mapping; on a non-mapping the lookup yields the default (the
Python code only calls `.get` on dicts). -/
def pyGetD (v : JVal) (k : String) (dflt : JVal) : JVal :=
  match v with
  | .obj kvs => (assocFind k kvs).getD dflt
  | _ => dflt

/-- Model of Python `d.get(k)` (default `None`). -/
def pyGet (v : JVal) (k : String) : JVal := pyGetD v k .null

/-- Model of Python truthiness on `JVal`. -/
def pyTruthy : JVal → Bool
  | .null => false
  | .bool b => b
  | .num n => n ≠ 0
  | .str s => s ≠ ""
  | .arr xs => !xs.isEmpty
  | .obj kvs => !kvs.isEmpty

/-- Numeric view of a value: in Python `bool` is a subtype of `int`
(`True == 1`), so both `num` and `bool` have numeric views. -/
def numView : JVal → Option Int
  | .num n => some n
  | .bool b => some (if b then 1 else 0)
  | _ => none

/-- Keys present in an association list. -/
def keysOf (d : List (String × JVal)) : List String := d.map Prod.fst

mutual
/-- Model of Python `==` on `JVal` values (`_match_expected` is `==`):
numeric cross-type equality (`True == 1`), element-wise list equality,
dict equality by key set and per-key value equality. -/
def pyEq : JVal → JVal → Bool
  | .null, .null => true
  | .str a, .str b => a = b
  | .arr xs, .arr ys => pyEqList xs ys
  | .obj xs, .obj ys => pyEqFwd xs ys && (keysOf ys).all (fun k => hasK k xs)
  | a, b =>
    match numView a, numView b with
    | some x, some y => x = y
    | _, _ => false

def pyEqList : List JVal → List JVal → Bool
  | [], [] => true
  | x :: xs, y :: ys => pyEq x y && pyEqList xs ys
  | _, _ => false

def pyEqFwd : List (String × JVal) → List (String × JVal) → Bool
  | [], _ => true
  | (k, v) :: rest, ys =>
    (match assocFind k ys with
     | some w => pyEq v w
     | none => false) && pyEqFwd rest ys
end

/-- An ASCII apostrophe, used when rendering Python quoted reprs. -/
def qm : String := String.singleton (Char.ofNat 39)

mutual
/-- Model of Python `repr()` on `JVal` (escape subtleties inside string
reprs are not modelled; no claim depends on them). -/
def pyRepr : JVal → String
  | .null => "None"
  | .bool b => if b then "True" else "False"
  | .num n => toString n
  | .str s => qm ++ s ++ qm
  | .arr xs => "[" ++ pyReprList xs ++ "]"
  | .obj kvs => "\x7b" ++ pyReprKVs kvs ++ "\x7d"

def pyReprList : List JVal → String
  | [] => ""
  | [x] => pyRepr x
  | x :: rest => pyRepr x ++ ", " ++ pyReprList rest

def pyReprKVs : List (String × JVal) → String
  | [] => ""
  | [(k, v)] => qm ++ k ++ qm ++ ": " ++ pyRepr v
  | (k, v) :: rest => qm ++ k ++ qm ++ ": " ++ pyRepr v ++ ", " ++ pyReprKVs rest
end

/-- Kernel-computable model of `str.lower()` (ASCII). -/
def pyLower (s : String) : String := String.mk (s.data.map Char.toLower)

/-- Kernel-computable model of `str.upper()` (ASCII). -/
def pyUpper (s : String) : String := String.mk (s.data.map Char.toUpper)

/-- Model of Python `str()` on `JVal`. -/
def pyStr : JVal → String
  | .str s => s
  | v => pyRepr v

/-! ### Python `int()` on strings

`_resolve_resp_ref` tries `int(ref)`; this models `int` applied to a
string: surrounding whitespace stripped, an optional sign, then digits
optionally separated by single underscores. -/

/-- Accumulate a digit run, allowing a single `_` between digits. -/
def digitsCore : List Char → Nat → Option Nat
  | [], acc => some acc
  | c :: rest, acc =>
    if c.isDigit then digitsCore rest (acc * 10 + (c.toNat - 48))
    else if c = '_' then
      match rest with
      | d :: rest2 =>
        if d.isDigit then digitsCore rest2 (acc * 10 + (d.toNat - 48)) else none
      | [] => none
    else none

/-- Strip leading and trailing whitespace from a character list. -/
def stripWs (s : List Char) : List Char :=
  ((s.dropWhile Char.isWhitespace).reverse.dropWhile Char.isWhitespace).reverse

/-- Model of Python `int(s)` for a string `s`: `none` models the
`ValueError` raised on a non-integer literal. -/
def pyIntOpt (s : String) : Option Int :=
  match stripWs s.data with
  | '+' :: d :: rest =>
    if d.isDigit then (digitsCore (d :: rest) 0).map Int.ofNat else none
  | '-' :: d :: rest =>
    if d.isDigit then (digitsCore (d :: rest) 0).map (fun n => -(Int.ofNat n)) else none
  | d :: rest =>
    if d.isDigit then (digitsCore (d :: rest) 0).map Int.ofNat else none
  | [] => none

/-! ### The `$identifier` placeholder scanner

`_SIMPLE_PLACEHOLDER_RE` and `_RUNTIME_PLACEHOLDER_RE` are both the
regex `\$([A-Za-z0-9_]+)`.  `scanPH` models `finditer`: a left-to-right
scan producing, for each match, the literal text before it and the
matched key (greedy maximal word-character run), plus the trailing
literal text. -/

/-- The regex word class `[A-Za-z0-9_]`. -/
def isWordChar (c : Char) : Bool := c.isAlphanum || c = '_'

/-- Fuel-indexed scanner for `\$([A-Za-z0-9_]+)` matches.  The fuel
only bounds the recursion depth (each step consumes at least one
character, so `fuel = length` is always enough); it makes the
recursion structural and hence kernel-computable. -/
def scanPHF : Nat → List Char → List (List Char × List Char) × List Char
  | _, [] => ([], [])
  | 0, l => ([], l)
  | fuel + 1, c :: rest =>
    if c = '$' ∧ !(rest.takeWhile isWordChar).isEmpty then
      match scanPHF fuel (rest.dropWhile isWordChar) with
      | (segs, tail) => (([], rest.takeWhile isWordChar) :: segs, tail)
    else
      match scanPHF fuel rest with
      | ([], tail) => ([], c :: tail)
      | ((pre, k) :: segs, tail) => ((c :: pre, k) :: segs, tail)

/-- Scan for `\$([A-Za-z0-9_]+)` matches: returns the list of
(preceding-literal, key) segments and the trailing literal. -/
def scanPH (l : List Char) : List (List Char × List Char) × List Char :=
  scanPHF l.length l

/-- Rebuild a scanned string, replacing each match `$key` by
`repl key`: the model of `re.sub` over the scan. -/
def phRebuild (repl : List Char → List Char) :
    List (List Char × List Char) → List Char → List Char
  | [], tail => tail
  | (pre, key) :: rest, tail => pre ++ repl key ++ phRebuild repl rest tail

/-- String case of `_substitute_in_obj`: exact single placeholder gives
the typed config value when the key is known; otherwise each known
placeholder is replaced by the `str()` form of its config value, and
unknown keys stay literal. -/
def substStrStatic (cfg : List (String × JVal)) (s : String) : JVal :=
  match scanPH s.data with
  | ([], _) => .str s
  | ([([], key)], []) =>
    if !cfg.isEmpty then
      match assocFind (String.mk key) cfg with
      | some v => v
      | none => .str s
    else .str s
  | (segs, tail) =>
    .str (String.mk (phRebuild
      (fun key =>
        match assocFind (String.mk key) cfg with
        | some v => (pyStr v).data
        | none => '$' :: key) segs tail))

mutual
/-- Model of `_substitute_in_obj`: recursive static `$key` substitution
over a scenario structure using the config mapping. -/
def substitute_in_obj (obj : JVal) (cfg : List (String × JVal)) : JVal :=
  match obj with
  | .obj kvs => .obj (substitute_in_obj_kvs kvs cfg)
  | .arr xs => .arr (substitute_in_obj_arr xs cfg)
  | .str s => substStrStatic cfg s
  | v => v

def substitute_in_obj_arr (xs : List JVal) (cfg : List (String × JVal)) : List JVal :=
  match xs with
  | [] => []
  | x :: rest => substitute_in_obj x cfg :: substitute_in_obj_arr rest cfg

def substitute_in_obj_kvs (kvs : List (String × JVal)) (cfg : List (String × JVal)) :
    List (String × JVal) :=
  match kvs with
  | [] => []
  | (k, v) :: rest => (k, substitute_in_obj v cfg) :: substitute_in_obj_kvs rest cfg
end

/-- String case of `_substitute_with_runtime` (after the emptiness
check): exact single placeholder gives the typed runtime value;
otherwise `str(runtime.get(key, m.group(0)))` replacement. -/
def substStrRuntime (runtime : List (String × JVal)) (s : String) : JVal :=
  match scanPH s.data with
  | ([], _) => .str s
  | ([([], key)], []) =>
    match assocFind (String.mk key) runtime with
    | some v => v
    | none => .str s
  | (segs, tail) =>
    .str (String.mk (phRebuild
      (fun key =>
        match assocFind (String.mk key) runtime with
        | some v => (pyStr v).data
        | none => '$' :: key) segs tail))

mutual
/-- Model of `_substitute_with_runtime`: recursive `$var` substitution
over a structure using the runtime (captured-variable) dict only. -/
def substitute_with_runtime (obj : JVal) (runtime : List (String × JVal)) : JVal :=
  match obj with
  | .obj kvs => .obj (substitute_with_runtime_kvs kvs runtime)
  | .arr xs => .arr (substitute_with_runtime_arr xs runtime)
  | .str s => if runtime.isEmpty then .str s else substStrRuntime runtime s
  | v => v

def substitute_with_runtime_arr (xs : List JVal) (runtime : List (String × JVal)) :
    List JVal :=
  match xs with
  | [] => []
  | x :: rest => substitute_with_runtime x runtime :: substitute_with_runtime_arr rest runtime

def substitute_with_runtime_kvs (kvs : List (String × JVal))
    (runtime : List (String × JVal)) : List (String × JVal) :=
  match kvs with
  | [] => []
  | (k, v) :: rest =>
    (k, substitute_with_runtime v runtime) :: substitute_with_runtime_kvs rest runtime
end

/-! ### The jsonpath collaborator

`jsonpath_ng.parse` / `.find` is an external library (the spec treats
"JSON path" as an opaque query selecting zero or more values).  It is
modelled on the dotted-name / index fragment used by the scenarios:
`$`, `$.name`, `$.a.b`, `$.a[0].b`.  `jsonpath_parse` returning `none`
models the parse exception on an invalid query; `jfind` returns the
ordered list of matched values. -/

/-- One step of a modelled jsonpath query. -/
inductive JSeg where
  | field : String → JSeg
  | index : Nat → JSeg
deriving Repr

/-- Fuel-indexed segment parser (fuel = remaining length suffices;
each step consumes at least one character). -/
def jsegsOfF : Nat → List Char → Option (List JSeg)
  | _, [] => some []
  | 0, _ => none
  | fuel + 1, '.' :: rest =>
    let name := rest.takeWhile isWordChar
    if name.isEmpty then none
    else
      match jsegsOfF fuel (rest.dropWhile isWordChar) with
      | some segs => some (.field (String.mk name) :: segs)
      | none => none
  | fuel + 1, '[' :: rest =>
    let ds := rest.takeWhile Char.isDigit
    if ds.isEmpty then none
    else
      match rest.dropWhile Char.isDigit with
      | ']' :: rest2 =>
        match jsegsOfF fuel rest2 with
        | some segs => some (.index ((digitsCore ds 0).getD 0) :: segs)
        | none => none
      | _ => none
  | _ + 1, _ => none

/-- Parse the segments after the leading `$`. -/
def jsegsOf (l : List Char) : Option (List JSeg) :=
  jsegsOfF l.length l

/-- Parse a jsonpath query string: `$` followed by segments. -/
def jparseStr (s : String) : Option (List JSeg) :=
  match s.data with
  | '$' :: rest => jsegsOf rest
  | _ => none

/-- Model of `jsonpath_ng.parse` on a scenario value: only a string can
parse (`parse` raises on anything else, which the callers catch). -/
def jsonpath_parse : JVal → Option (List JSeg)
  | .str s => jparseStr s
  | _ => none

/-- Model of `expr.find(body)`: the ordered list of matched values. -/
def jfind : List JSeg → JVal → List JVal
  | [], v => [v]
  | .field n :: rest, .obj kvs =>
    match assocFind n kvs with
    | some v => jfind rest v
    | none => []
  | .field _ :: _, _ => []
  | .index i :: rest, .arr xs =>
    match xs.get? i with
    | some v => jfind rest v
    | none => []
  | .index _ :: _, _ => []

/-! ### Responses and the runtime context -/

/-- The Response abstraction of the transport collaborator: status
code, ordered header mapping, raw text, and the result of the graceful
JSON-parse operation (`none` models a non-JSON body, as in
`_extract_json`). -/
structure Response where
  status_code : Int
  headers : List (String × String)
  text : String
  jsonBody : Option JVal
deriving Repr

/-- Model of `_extract_json`: parse the body, `none` when invalid. -/
def extract_json (r : Response) : Option JVal := r.jsonBody

/-- The runner's three response storages: `responses_by_name`,
`responses_by_index` (keyed by the 1-based step index as a Python int)
and `responses_list`.  Dict insertion is cons (most recent first). -/
structure RespCtx where
  byName : List (String × Response)
  byIndex : List (Int × Response)
  list : List Response

/-- The empty context a scenario starts with. -/
def RespCtx.empty : RespCtx := ⟨[], [], []⟩

/-- First-occurrence lookup in `responses_by_name`. -/
def lookupName (k : String) : List (String × Response) → Option Response
  | [] => none
  | (k2, r) :: rest => if k2 = k then some r else lookupName k rest

/-- First-occurrence lookup in `responses_by_index`. -/
def lookupIdx (i : Int) : List (Int × Response) → Option Response
  | [] => none
  | (j, r) :: rest => if j = i then some r else lookupIdx i rest

/-- Model of `_resolve_resp_ref`: `last` gives the most recent
response, an integer literal is a 1-based step index, any other token
is a step name. -/
def resolve_resp_ref (ref : String) (ctx : RespCtx) : Option Response :=
  if ref = "last" then ctx.list.getLast?
  else
    match pyIntOpt ref with
    | some i => lookupIdx i ctx.byIndex
    | none => lookupName ref ctx.byName

/-! ### `$resp[...]` placeholder parsing

The three regexes, used with `fullmatch`:
  `_RESP_STATUS_RE`   = `\$resp\[(?P<ref>[^\]]+)\]\.status`
  `_RESP_TEXT_RE`     = `\$resp\[(?P<ref>[^\]]+)\]\.text`
  `_RESP_JSONPATH_RE` = `\$resp\[(?P<ref>[^\]]+)\]\.jsonpath\((?P<path>[^)]+)\)`
Each is modelled by an exact-shape parser: since `ref` cannot contain
`]` and `path` cannot contain `)`, a full match decomposes uniquely. -/

/-- Strip an exact literal from the front of a character list. -/
def stripLit : List Char → List Char → Option (List Char)
  | [], s => some s
  | p :: ps, c :: cs => if c = p then stripLit ps cs else none
  | _ :: _, [] => none

/-- Split at the first occurrence of `stop`: returns the (possibly
empty) run before it and the remainder starting at `stop`. -/
def splitAtChar (stop : Char) : List Char → List Char × List Char
  | [] => ([], [])
  | c :: cs =>
    if c = stop then ([], c :: cs)
    else
      match splitAtChar stop cs with
      | (a, b) => (c :: a, b)

/-- Match `\$resp\[(?P<ref>[^\]]+)\]\.status` at the head of `s`:
returns `ref` and the remainder after the match. -/
def matchStatusAt (s : List Char) : Option (String × List Char) :=
  match stripLit "$resp[".data s with
  | none => none
  | some r1 =>
    match splitAtChar ']' r1 with
    | (ref, r2) =>
      if ref.isEmpty then none
      else
        match stripLit "].status".data r2 with
        | some rest => some (String.mk ref, rest)
        | none => none

/-- Match `\$resp\[(?P<ref>[^\]]+)\]\.text` at the head of `s`. -/
def matchTextAt (s : List Char) : Option (String × List Char) :=
  match stripLit "$resp[".data s with
  | none => none
  | some r1 =>
    match splitAtChar ']' r1 with
    | (ref, r2) =>
      if ref.isEmpty then none
      else
        match stripLit "].text".data r2 with
        | some rest => some (String.mk ref, rest)
        | none => none

/-- Match `\$resp\[(?P<ref>[^\]]+)\]\.jsonpath\((?P<path>[^)]+)\)` at
the head of `s`: returns `(ref, path)` and the remainder. -/
def matchJsonpathAt (s : List Char) : Option (String × String × List Char) :=
  match stripLit "$resp[".data s with
  | none => none
  | some r1 =>
    match splitAtChar ']' r1 with
    | (ref, r2) =>
      if ref.isEmpty then none
      else
        match stripLit "].jsonpath(".data r2 with
        | none => none
        | some r3 =>
          match splitAtChar ')' r3 with
          | (path, r4) =>
            if path.isEmpty then none
            else
              match r4 with
              | ')' :: rest => some (String.mk ref, String.mk path, rest)
              | _ => none

/-- Model of `_RESP_STATUS_RE.fullmatch`: returns `ref`. -/
def parseRespStatus (s : List Char) : Option String :=
  match matchStatusAt s with
  | some (ref, []) => some ref
  | _ => none

/-- Model of `_RESP_TEXT_RE.fullmatch`: returns `ref`. -/
def parseRespText (s : List Char) : Option String :=
  match matchTextAt s with
  | some (ref, []) => some ref
  | _ => none

/-- Model of `_RESP_JSONPATH_RE.fullmatch`: returns `(ref, path)`. -/
def parseRespJsonpath (s : List Char) : Option (String × String) :=
  match matchJsonpathAt s with
  | some (ref, path, []) => some (ref, path)
  | _ => none

/-! ### Inline `$resp[...]` replacement (`re.sub`) -/

/-- The Python truthiness of a `requests.Response`: `bool(resp)` is
`resp.ok`, i.e. `raise_for_status()` would not raise, i.e. the status
code is outside `[400, 600)`. -/
def respOk (r : Response) : Bool :=
  !(decide (400 ≤ r.status_code) && decide (r.status_code < 600))

/-- Inline pass for `_RESP_JSONPATH_RE.sub(_repl_jsonpath, obj)`:
resolved, ok responses with a JSON body and a valid query with at
least one match are replaced by the comma-joined `str()` forms;
otherwise the matched text is kept.  Fuel-indexed (every match or
skipped character consumes at least one character, see
`matchJsonpathAt_shrink`, so `fuel = length` suffices). -/
def subJsonpathInlineF (ctx : RespCtx) : Nat → List Char → List Char
  | _, [] => []
  | 0, l => l
  | fuel + 1, c :: cs =>
    match matchJsonpathAt (c :: cs) with
    | some (ref, path, rest) =>
      (match resolve_resp_ref ref ctx with
       | some r =>
         if respOk r then
           match extract_json r with
           | none => "$resp[".data ++ ref.data ++ "].jsonpath(".data ++ path.data ++ [')']
           | some body =>
             match jparseStr path with
             | none => "$resp[".data ++ ref.data ++ "].jsonpath(".data ++ path.data ++ [')']
             | some expr =>
               match jfind expr body with
               | [] => "$resp[".data ++ ref.data ++ "].jsonpath(".data ++ path.data ++ [')']
               | ms => (String.intercalate "," (ms.map pyStr)).data
         else "$resp[".data ++ ref.data ++ "].jsonpath(".data ++ path.data ++ [')']
       | none => "$resp[".data ++ ref.data ++ "].jsonpath(".data ++ path.data ++ [')'])
      ++ subJsonpathInlineF ctx fuel rest
    | none => c :: subJsonpathInlineF ctx fuel cs

def subJsonpathInline (ctx : RespCtx) (l : List Char) : List Char :=
  subJsonpathInlineF ctx l.length l

/-- Inline pass for `_RESP_STATUS_RE.sub(...)`: resolved, ok responses
are replaced by `str(status_code)`; otherwise the match is kept.
Fuel-indexed, see `matchStatusAt_shrink`. -/
def subStatusInlineF (ctx : RespCtx) : Nat → List Char → List Char
  | _, [] => []
  | 0, l => l
  | fuel + 1, c :: cs =>
    match matchStatusAt (c :: cs) with
    | some (ref, rest) =>
      (match resolve_resp_ref ref ctx with
       | some r =>
         if respOk r then (toString r.status_code).data
         else "$resp[".data ++ ref.data ++ "].status".data
       | none => "$resp[".data ++ ref.data ++ "].status".data)
      ++ subStatusInlineF ctx fuel rest
    | none => c :: subStatusInlineF ctx fuel cs

def subStatusInline (ctx : RespCtx) (l : List Char) : List Char :=
  subStatusInlineF ctx l.length l

/-- Inline pass for `_RESP_TEXT_RE.sub(...)`: resolved, ok responses
are replaced by their raw text; otherwise the match is kept.
Fuel-indexed, see `matchTextAt_shrink`. -/
def subTextInlineF (ctx : RespCtx) : Nat → List Char → List Char
  | _, [] => []
  | 0, l => l
  | fuel + 1, c :: cs =>
    match matchTextAt (c :: cs) with
    | some (ref, rest) =>
      (match resolve_resp_ref ref ctx with
       | some r =>
         if respOk r then r.text.data
         else "$resp[".data ++ ref.data ++ "].text".data
       | none => "$resp[".data ++ ref.data ++ "].text".data)
      ++ subTextInlineF ctx fuel rest
    | none => c :: subTextInlineF ctx fuel cs

def subTextInline (ctx : RespCtx) (l : List Char) : List Char :=
  subTextInlineF ctx l.length l

/-- String case of `_substitute_response_placeholders`: full-string
matches (jsonpath, then status, then text) return typed values when
the reference resolves to a truthy response; otherwise the three
inline `re.sub` passes are applied in the source's order. -/
def substRespStr (ctx : RespCtx) (s : String) : JVal :=
  match parseRespJsonpath s.data with
  | some (ref, path) =>
    match resolve_resp_ref ref ctx with
    | some r =>
      if respOk r then
        match extract_json r with
        | none => .str s
        | some body =>
          match jparseStr path with
          | none => .str s
          | some expr =>
            match jfind expr body with
            | [] => .str s
            | [v] => v
            | vs => .arr vs
      else .str s
    | none => .str s
  | none =>
    match parseRespStatus s.data with
    | some ref =>
      match resolve_resp_ref ref ctx with
      | some r => if respOk r then .num r.status_code else .str s
      | none => .str s
    | none =>
      match parseRespText s.data with
      | some ref =>
        match resolve_resp_ref ref ctx with
        | some r => if respOk r then .str r.text else .str s
        | none => .str s
      | none =>
        .str (String.mk (subTextInline ctx (subStatusInline ctx
          (subJsonpathInline ctx s.data))))

mutual
/-- Model of `_substitute_response_placeholders`: recursive `$resp[...]`
substitution over a step structure using the runtime context. -/
def substitute_response_placeholders (obj : JVal) (ctx : RespCtx) : JVal :=
  match obj with
  | .obj kvs => .obj (substitute_response_placeholders_kvs kvs ctx)
  | .arr xs => .arr (substitute_response_placeholders_arr xs ctx)
  | .str s => substRespStr ctx s
  | v => v

def substitute_response_placeholders_arr (xs : List JVal) (ctx : RespCtx) : List JVal :=
  match xs with
  | [] => []
  | x :: rest =>
    substitute_response_placeholders x ctx :: substitute_response_placeholders_arr rest ctx

def substitute_response_placeholders_kvs (kvs : List (String × JVal)) (ctx : RespCtx) :
    List (String × JVal) :=
  match kvs with
  | [] => []
  | (k, v) :: rest =>
    (k, substitute_response_placeholders v ctx) ::
      substitute_response_placeholders_kvs rest ctx
end

/-! ### The verifier (`verify_response`) -/

/-- Model of `_match_expected`: Python `==`. -/
def match_expected (actual expected : JVal) : Bool := pyEq actual expected

/-- Key-presence (`"k" in d`) on a scenario value. -/
def hasKJ (v : JVal) (k : String) : Bool :=
  match v with
  | .obj kvs => hasK k kvs
  | _ => false

/-- The `f"JSON path '{path}'"` fragment shared by failure messages. -/
def pathQ (path : JVal) : String := "JSON path " ++ qm ++ pyStr path ++ qm

/-- The directive dispatch of one iteration of the assertion loop in
`verify_response`, abstracted over the looked-up assertion fields
(path value, presence and value of `exists`, truthiness of `not_null`,
presence and value of `contains` and of `expected_value`).  `none` is
a passing assertion (`continue`), `some` is the failure message that
short-circuits the whole verification.  The directives are checked in
the source's order: `exists`, then `not_null`, then `contains`, then
`expected_value`, then the default presence check. -/
def checkDirectives (body path : JVal) (hasEx : Bool) (exVal : JVal) (nnTruthy : Bool)
    (hasCt : Bool) (ctVal : JVal) (hasEv : Bool) (evVal : JVal) : Option String :=
  if !pyTruthy path then
    some ("Invalid assertion: missing " ++ qm ++ "path" ++ qm)
  else
    match jsonpath_parse path with
    | none => some ("Invalid JSONPath " ++ qm ++ pyStr path ++ qm)
    | some expr =>
      let ms := jfind expr body
      if hasEx then
        let want := pyTruthy exVal
        if want && ms.isEmpty then
          some (pathQ path ++ " not found (expected to exist)")
        else if !want && !ms.isEmpty then
          some (pathQ path ++ " expected to be absent but found " ++ pyRepr (.arr ms))
        else none
      else if nnTruthy then
        if ms.isEmpty then
          some (pathQ path ++ " not found (not_null asserted)")
        else if ms.any (fun m => match m with | .null => true | _ => false) then
          some (pathQ path ++ " contains null value(s): " ++ pyRepr (.arr ms))
        else none
      else if hasCt then
        if ms.isEmpty then
          some (pathQ path ++ " not found (contains asserted)")
        else if ms.any (fun m =>
            match m with
            | .arr xs => xs.any (fun x => pyEq ctVal x)
            | .obj kvs =>
              kvs.any (fun kv => pyEq ctVal kv.2) ||
                kvs.any (fun kv => pyEq ctVal (.str kv.1))
            | _ => match_expected m ctVal) then
          none
        else
          some (pathQ path ++ " does not contain " ++ pyRepr ctVal ++ "; values: " ++
            pyRepr (.arr ms))
      else if hasEv then
        if ms.isEmpty then
          some (pathQ path ++ " not found")
        else if ms.any (fun mv => match_expected mv evVal) then
          none
        else
          some (pathQ path ++ " expected " ++ pyRepr evVal ++ " but got " ++
            pyRepr (.arr ms))
      else
        if ms.isEmpty then some (pathQ path ++ " not found") else none

/-- The body of one iteration of the assertion loop in
`verify_response`: the directive dispatch applied to the assertion
dict's fields, read at the source's access points. -/
def checkAssertion (body : JVal) (assertion : JVal) : Option String :=
  checkDirectives body (pyGet assertion "path")
    (hasKJ assertion "exists") (pyGet assertion "exists")
    (pyTruthy (pyGet assertion "not_null"))
    (hasKJ assertion "contains") (pyGet assertion "contains")
    (hasKJ assertion "expected_value") (pyGet assertion "expected_value")

/-- The assertion loop of `verify_response`: in order, stopping at the
first failing assertion. -/
def verifyAssertions (body : JVal) : List JVal → Option String
  | [] => none
  | a :: rest =>
    match checkAssertion body a with
    | some e => some e
    | none => verifyAssertions body rest

/-- The `json_assertions` part of `verify_response`, after the status
check has passed or been skipped. -/
def verifyAssertionsPart (response : Response) (verification : JVal) : Bool × Option String :=
  let json_assertions : List JVal :=
    match pyGet verification "json_assertions" with
    | .arr xs => xs
    | _ => []
  if json_assertions.isEmpty then (true, none)
  else
    match extract_json response with
    | none => (false, some "Response body is not valid JSON but json_assertions were provided")
    | some body =>
      match verifyAssertions body json_assertions with
      | some e => (false, some e)
      | none => (true, none)

/-- Model of `verify_response`: status-code equality first (when
specified), then the json assertions against the parsed body. -/
def verify_response (response : Response) (step : JVal) : Bool × Option String :=
  let verification := pyGetD step "verification" (.obj [])
  match pyGet verification "status_code" with
  | .null => verifyAssertionsPart response verification
  | expected_status =>
    if !pyEq (.num response.status_code) expected_status then
      (false, some ("Status Code mismatch: expected " ++ pyStr expected_status ++
        ", got " ++ toString response.status_code))
    else verifyAssertionsPart response verification

/-! ### The capture engine (`_capture_from_response`) -/

/-- The `(ok, (name, value_or_error))` result of one capture. -/
structure CaptureOutcome where
  ok : Bool
  name : JVal
  value : JVal
deriving Repr

/-- Model of `_capture_from_response`: `status` stores the status code,
`header` does a case-insensitive header lookup, the default `json`
source stores the single match or the full match list. -/
def capture_from_response (resp : Response) (capture_spec : JVal) : CaptureOutcome :=
  let name := pyGet capture_spec "name"
  if !pyTruthy name then
    ⟨false, .null, .str ("capture entry missing " ++ qm ++ "name" ++ qm)⟩
  else
    let source : String :=
      match pyGet capture_spec "source" with
      | .str s => if s.isEmpty then "json" else pyLower s
      | _ => "json"
    if source = "status" then ⟨true, name, .num resp.status_code⟩
    else if source = "header" then
      let header_name :=
        if pyTruthy (pyGet capture_spec "path") then pyGet capture_spec "path"
        else pyGet capture_spec "header"
      if !pyTruthy header_name then
        ⟨false, name, .str ("capture header requires " ++ qm ++ "path" ++ qm ++
          " (header name)")⟩
      else
        let hn := pyStr header_name
        match resp.headers.find? (fun kv => pyLower kv.1 == pyLower hn) with
        | some kv => ⟨true, name, .str kv.2⟩
        | none => ⟨false, name, .str ("header " ++ qm ++ hn ++ qm ++ " not found")⟩
    else
      match extract_json resp with
      | none => ⟨false, name, .str "response body not JSON"⟩
      | some body =>
        let path := pyGet capture_spec "path"
        if !pyTruthy path then
          ⟨false, name, .str ("capture json requires " ++ qm ++ "path" ++ qm ++
            " (JSONPath)")⟩
        else
          match jsonpath_parse path with
          | none => ⟨false, name, .str ("invalid JSONPath " ++ qm ++ pyStr path ++ qm)⟩
          | some expr =>
            match jfind expr body with
            | [] => ⟨false, name, .str (pathQ path ++ " not found")⟩
            | [v] => ⟨true, name, v⟩
            | vs => ⟨true, name, .arr vs⟩

/-! ### The request builder (`execute_api_call`) -/

/-- The transport-agnostic request descriptor handed to
`session.request`. -/
structure PyRequest where
  method : String
  url : JVal
  headers : JVal
  body : Option JVal
  params : Option JVal
  timeout : JVal
  cert : Option JVal
  verify : JVal
  auth : Option (JVal × JVal)
  proxies : Option JVal
  allow_redirects : JVal
deriving Repr

/-- Model of `execute_api_call` up to the transport call: produces the
request descriptor, or the message of the exception raised while
building it (`ValueError("Missing URL in action")` when the url is
absent or falsy). -/
def execute_api_call (step : JVal) : Except String PyRequest :=
  let action := pyGetD step "action" (.obj [])
  match (if pyTruthy (pyGet action "method") then pyGet action "method" else .str "GET") with
  | .str m =>
    if !pyTruthy (pyGet action "url") then .error "Missing URL in action"
    else
      .ok ⟨pyUpper m,
        pyGet action "url",
        (if pyTruthy (pyGet action "headers") then pyGet action "headers" else .obj []),
        (match pyGet action "body" with | .null => none | v => some v),
        (match pyGet action "params" with | .null => none | v => some v),
        pyGetD action "timeout" (.num 30),
        (match pyGet action "cert" with | .null => none | v => some v),
        pyGetD action "verify" (.bool true),
        (let a := pyGet action "auth"
         if pyTruthy a then
           match a with
           | .arr [u, p] => some (u, p)
           | .obj _ =>
             if pyEq (pyGet a "type") (.str "basic") then
               some (pyGet a "user", pyGet a "pass")
             else none
           | _ => none
         else none),
        (match pyGet action "proxies" with | .null => none | v => some v),
        pyGetD action "allow_redirects" (.bool true)⟩
  | _ => .error "method value has no upper()"

/-! ### The scenario runner (`run_scenario`) -/

/-- The `step.get("name", f"step-{idx}")` step name (step names are
strings per the data model). -/
def stepNameOf (step : JVal) (idx : Nat) : String :=
  match step with
  | .obj kvs =>
    match assocFind "name" kvs with
    | some v => pyStr v
    | none => "step-" ++ toString idx
  | _ => "step-" ++ toString idx

/-- The `scenario.get("steps", []) or []` step sequence (steps form an
ordered sequence per the data model). -/
def stepsOf (scenario : JVal) : List JVal :=
  match pyGet scenario "steps" with
  | .arr xs => xs
  | _ => []

/-- The runner's context update after a successful transport call:
`responses_list.append(resp)`, `responses_by_index[idx] = resp`,
`responses_by_name[step_name] = resp`, `responses_by_name["last"] =
resp` (dict assignment = cons, most recent first). -/
def recordResponse (ctx : RespCtx) (idx : Nat) (stepName : String) (resp : Response) :
    RespCtx :=
  ⟨("last", resp) :: (stepName, resp) :: ctx.byName,
   ((idx : Int), resp) :: ctx.byIndex,
   ctx.list ++ [resp]⟩

/-- The outcome of a scenario run, instrumented with the trace of
transport calls and the final runtime context so that the temporal
claims are statable. -/
structure RunResult where
  ok : Bool
  failIndex : Option Nat
  failName : Option String
  errMsg : Option String
  calls : List PyRequest
  ctx : RespCtx

/-- The step loop of `run_scenario`: substitute against the current
context, build and send, record the response, verify, stop at the
first failure.  The transport collaborator is an oracle; `none` models
a raised transport exception. -/
def runSteps (transport : PyRequest → Option Response) :
    List JVal → Nat → RespCtx → List PyRequest → RunResult
  | [], _, ctx, calls => ⟨true, none, none, none, calls, ctx⟩
  | step :: rest, idx, ctx, calls =>
    let step_name := stepNameOf step idx
    let step_to_run := substitute_response_placeholders step ctx
    match execute_api_call step_to_run with
    | .error e =>
      ⟨false, some idx, some step_name, some ("Request failed: " ++ e), calls, ctx⟩
    | .ok req =>
      match transport req with
      | none =>
        ⟨false, some idx, some step_name, some "Request failed: transport error",
          calls ++ [req], ctx⟩
      | some resp =>
        let ctx2 := recordResponse ctx idx step_name resp
        match verify_response resp step_to_run with
        | (true, _) => runSteps transport rest (idx + 1) ctx2 (calls ++ [req])
        | (false, err) => ⟨false, some idx, some step_name, err, calls ++ [req], ctx2⟩

/-- Model of `run_scenario`: run the steps from the empty context. -/
def run_scenario (scenario : JVal) (transport : PyRequest → Option Response) : RunResult :=
  runSteps transport (stepsOf scenario) 1 RespCtx.empty []

/-! ### Concrete scenarios, transports and auxiliary definitions used by
the claim theorems -/

/-- The response every transport call returns in the C1 run. -/
def c1Response : Response := ⟨201, [], "", some (.obj [])⟩

/-- Transport oracle for the C1 run. -/
def c1Transport : PyRequest → Option Response := fun _ => some c1Response

/-- A 2-step scenario: step 1 captures the status under `X`, step 2
references `$X` in its url. -/
def c1Scenario : JVal := .obj [("name", .str "s"), ("steps", .arr [
  .obj [("name", .str "one"), ("action", .obj [("url", .str "http://a")]),
    ("capture", .arr [.obj [("name", .str "X"), ("source", .str "status")]])],
  .obj [("name", .str "two"), ("action", .obj [("url", .str "$X")])]])]

/-- Claim C2 counterexample: a recorded 404 response.  A
`requests.Response` is falsy when its status code is an error code, so
the `if resp else obj` guard in `_substitute_response_placeholders`
treats the resolved 404 response like an unresolved reference and
leaves the placeholder unchanged instead of yielding 404. -/
def c2FalsyResponse : Response := ⟨404, [], "nf", none⟩

/-- Context holding only the 404 response, recorded as step 1. -/
def c2FalsyCtx : RespCtx := recordResponse RespCtx.empty 1 "one" c2FalsyResponse

/-- The step-1 response the C2 witness records. -/
def c2OkResponse : Response := ⟨200, [], "ok", none⟩

/-- Context holding only the 200 response, recorded as step 1. -/
def c2OkCtx : RespCtx := recordResponse RespCtx.empty 1 "one" c2OkResponse

/-- Remove every binding of key `k` (the model of an assertion dict
without that key). -/
def eraseKey (k : String) : List (String × JVal) → List (String × JVal)
  | [] => []
  | (k2, v) :: rest =>
    if k2 = k then eraseKey k rest else (k2, v) :: eraseKey k rest

/-- A 2-step scenario whose steps share the name `a`. -/
def c6Scenario : JVal := .obj [("name", .str "s"), ("steps", .arr [
  .obj [("name", .str "a"), ("action", .obj [("url", .str "http://1")])],
  .obj [("name", .str "a"), ("action", .obj [("url", .str "http://2")])]])]

/-- Transport for the C6 run: step 1's request gets a 200, step 2's a
201 (both verifications are absent, so both steps pass). -/
def c6Transport : PyRequest → Option Response := fun r =>
  if pyEq r.url (.str "http://1") then some ⟨200, [], "", none⟩
  else some ⟨201, [], "", none⟩

/-- Step 1 of the C7 witness scenario: expects status 201. -/
def c7Step1 : JVal := .obj [("name", .str "one"),
  ("action", .obj [("url", .str "http://a")]),
  ("verification", .obj [("status_code", .num 201)])]

/-- Step 2 of the C7 witness scenario: must never be sent. -/
def c7Step2 : JVal := .obj [("name", .str "two"),
  ("action", .obj [("url", .str "http://b")])]

/-- The C7 witness scenario: step 1 fails verification. -/
def c7Scenario : JVal := .obj [("name", .str "s"),
  ("steps", .arr [c7Step1, c7Step2])]

/-- Transport for the C7 witness: every request is answered 200, so
step 1's verification (expecting 201) fails. -/
def c7Transport : PyRequest → Option Response := fun _ => some ⟨200, [], "", none⟩

/-- The request built from step 1 of the C7 witness scenario. -/
def c7Req : PyRequest :=
  ⟨"GET", .str "http://a", .obj [], none, none, .num 30, none, .bool true,
    none, none, .bool true⟩

/-! ## Supporting lemmas -/

theorem dropWhile_len_le (p : Char → Bool) :
    (l : List Char) → (l.dropWhile p).length ≤ l.length
  | [] => Nat.le_refl _
  | c :: rest => by
    simp only [List.dropWhile]
    split
    · exact Nat.le_succ_of_le (dropWhile_len_le p rest)
    · exact Nat.le_refl _

theorem stripLit_length :
    ∀ (lit s r : List Char), stripLit lit s = some r → s.length = lit.length + r.length
  | [], s, r, h => by
    simp only [stripLit, Option.some.injEq] at h
    subst h
    simp
  | p :: ps, [], r, h => by simp [stripLit] at h
  | p :: ps, c :: cs, r, h => by
    simp only [stripLit] at h
    split at h
    · have ih := stripLit_length ps cs r h
      simp only [List.length_cons]
      omega
    · exact absurd h (by simp)

theorem splitAtChar_length (stop : Char) :
    ∀ s : List Char,
      (splitAtChar stop s).1.length + (splitAtChar stop s).2.length = s.length
  | [] => by simp [splitAtChar]
  | c :: cs => by
    have ih := splitAtChar_length stop cs
    simp only [splitAtChar]
    split
    · simp
    · cases h : splitAtChar stop cs with
      | mk a b =>
        rw [h] at ih
        simp only [h, List.length_cons]
        simp at ih ⊢
        omega

theorem matchStatusAt_shrink (s : List Char) (ref : String) (rest : List Char)
    (h : matchStatusAt s = some (ref, rest)) : rest.length < s.length := by
  unfold matchStatusAt at h
  cases h1 : stripLit "$resp[".data s with
  | none => rw [h1] at h; simp at h
  | some r1 =>
    rw [h1] at h
    dsimp only at h
    cases h2 : splitAtChar ']' r1 with
    | mk ref0 r2 =>
      rw [h2] at h
      simp only at h
      split at h
      · simp at h
      · cases h3 : stripLit "].status".data r2 with
        | none => rw [h3] at h; simp at h
        | some rest2 =>
          rw [h3] at h
          simp only [Option.some.injEq, Prod.mk.injEq] at h
          obtain ⟨h5, h6⟩ := h
          subst h6
          have e1 := stripLit_length _ _ _ h1
          have e2 := splitAtChar_length ']' r1
          rw [h2] at e2
          have e3 := stripLit_length _ _ _ h3
          have d1 : ("$resp[".data).length = 6 := by decide
          have d2 : ("].status".data).length = 8 := by decide
          simp at e2
          omega

theorem matchTextAt_shrink (s : List Char) (ref : String) (rest : List Char)
    (h : matchTextAt s = some (ref, rest)) : rest.length < s.length := by
  unfold matchTextAt at h
  cases h1 : stripLit "$resp[".data s with
  | none => rw [h1] at h; simp at h
  | some r1 =>
    rw [h1] at h
    dsimp only at h
    cases h2 : splitAtChar ']' r1 with
    | mk ref0 r2 =>
      rw [h2] at h
      simp only at h
      split at h
      · simp at h
      · cases h3 : stripLit "].text".data r2 with
        | none => rw [h3] at h; simp at h
        | some rest2 =>
          rw [h3] at h
          simp only [Option.some.injEq, Prod.mk.injEq] at h
          obtain ⟨h5, h6⟩ := h
          subst h6
          have e1 := stripLit_length _ _ _ h1
          have e2 := splitAtChar_length ']' r1
          rw [h2] at e2
          have e3 := stripLit_length _ _ _ h3
          have d1 : ("$resp[".data).length = 6 := by decide
          have d2 : ("].text".data).length = 6 := by decide
          simp at e2
          omega

theorem matchJsonpathAt_shrink (s : List Char) (ref path : String) (rest : List Char)
    (h : matchJsonpathAt s = some (ref, path, rest)) : rest.length < s.length := by
  unfold matchJsonpathAt at h
  cases h1 : stripLit "$resp[".data s with
  | none => rw [h1] at h; simp at h
  | some r1 =>
    rw [h1] at h
    dsimp only at h
    cases h2 : splitAtChar ']' r1 with
    | mk ref0 r2 =>
      rw [h2] at h
      simp only at h
      split at h
      · simp at h
      · cases h3 : stripLit "].jsonpath(".data r2 with
        | none => rw [h3] at h; simp at h
        | some r3 =>
          rw [h3] at h
          dsimp only at h
          cases h4 : splitAtChar ')' r3 with
          | mk path0 r4 =>
            simp only [h4] at h
            split at h
            · simp at h
            · split at h
              · simp only [Option.some.injEq, Prod.mk.injEq] at h
                obtain ⟨h5, h6, h7⟩ := h
                subst h7
                have e1 := stripLit_length _ _ _ h1
                have e2 := splitAtChar_length ']' r1
                rw [h2] at e2
                have e3 := stripLit_length _ _ _ h3
                have e4 := splitAtChar_length ')' r3
                rw [h4] at e4
                have d1 : ("$resp[".data).length = 6 := by decide
                have d2 : ("].jsonpath(".data).length = 11 := by decide
                simp at e2 e4
                omega
              · simp at h


theorem takeWhile_all (p : Char → Bool) :
    ∀ l : List Char, (∀ c ∈ l, p c = true) → l.takeWhile p = l
  | [], _ => rfl
  | c :: rest, h => by
    have hc := h c (List.mem_cons_self c rest)
    simp only [List.takeWhile, hc]
    exact congrArg (c :: ·) (takeWhile_all p rest fun x hx => h x (List.mem_cons_of_mem c hx))

theorem dropWhile_all (p : Char → Bool) :
    ∀ l : List Char, (∀ c ∈ l, p c = true) → l.dropWhile p = []
  | [], _ => rfl
  | c :: rest, h => by
    have hc := h c (List.mem_cons_self c rest)
    simp only [List.dropWhile, hc]
    exact dropWhile_all p rest fun x hx => h x (List.mem_cons_of_mem c hx)

theorem stripLit_pref : ∀ lit s : List Char, stripLit lit (lit ++ s) = some s
  | [], s => rfl
  | p :: ps, s => by
    simp only [List.cons_append, stripLit, if_pos rfl]
    exact stripLit_pref ps s

theorem splitAtChar_no_stop (stop : Char) :
    ∀ (l rest : List Char), (∀ c ∈ l, c ≠ stop) →
      splitAtChar stop (l ++ stop :: rest) = (l, stop :: rest)
  | [], rest, _ => by simp [splitAtChar]
  | c :: l, rest, h => by
    have hc := h c (List.mem_cons_self c l)
    have ih := splitAtChar_no_stop stop l rest fun x hx => h x (List.mem_cons_of_mem c hx)
    simp only [List.cons_append, splitAtChar, if_neg hc, List.append_eq, ih]

theorem scanPHF_nil : ∀ fuel, scanPHF fuel [] = ([], [])
  | 0 => rfl
  | _ + 1 => rfl

/-- One `$key` placeholder preceded by `$`-free literal text scans to a
single segment (fuel-general form). -/
theorem scanPHF_single :
    ∀ (t : List Char) (fuel : Nat) (key : List Char),
      (t ++ '$' :: key).length ≤ fuel →
      (∀ c ∈ t, c ≠ '$') → key ≠ [] → (∀ c ∈ key, isWordChar c = true) →
      scanPHF fuel (t ++ '$' :: key) = ([(t, key)], [])
  | [], fuel, key, hlen, _, hk1, hk2 => by
    cases fuel with
    | zero =>
      simp only [List.nil_append, List.length_cons] at hlen
      exact absurd hlen (Nat.not_succ_le_zero _)
    | succ f =>
      have hne : key.isEmpty = false := by
        cases key with
        | nil => exact absurd rfl hk1
        | cons a b => rfl
      simp only [List.nil_append, scanPHF]
      rw [takeWhile_all isWordChar key hk2, dropWhile_all isWordChar key hk2]
      simp [hne, scanPHF_nil f]
  | c :: t, fuel, key, hlen, ht, hk1, hk2 => by
    cases fuel with
    | zero =>
      simp only [List.cons_append, List.length_cons] at hlen
      exact absurd hlen (Nat.not_succ_le_zero _)
    | succ f =>
      have hc := ht c (List.mem_cons_self c t)
      have ih := scanPHF_single t f key
        (by simp only [List.cons_append, List.length_cons] at hlen; omega)
        (fun x hx => ht x (List.mem_cons_of_mem c hx)) hk1 hk2
      simp only [List.cons_append, scanPHF, List.append_eq]
      rw [if_neg (fun hand => hc hand.1)]
      rw [ih]

/-- One `$key` placeholder preceded by `$`-free literal text scans to a
single segment. -/
theorem scanPH_single (t key : List Char) (ht : ∀ c ∈ t, c ≠ '$') (hk1 : key ≠ [])
    (hk2 : ∀ c ∈ key, isWordChar c = true) :
    scanPH (t ++ '$' :: key) = ([(t, key)], []) :=
  scanPHF_single t _ key (Nat.le_refl _) ht hk1 hk2

/-! ## Claims -/

/-- Claim C9: a scenario whose step sequence is empty succeeds without
invoking the transport. -/
theorem C9_empty_scenario_succeeds (scenario : JVal)
    (transport : PyRequest → Option Response)
    (h : stepsOf scenario = []) :
    (run_scenario scenario transport).ok = true ∧
    (run_scenario scenario transport).calls = [] := by
  unfold run_scenario
  rw [h]
  exact ⟨rfl, rfl⟩

theorem C9_witness :
    stepsOf (JVal.obj [("name", .str "empty")]) = [] ∧
    (run_scenario (JVal.obj [("name", .str "empty")]) (fun _ => none)).ok = true ∧
    (run_scenario (JVal.obj [("name", .str "empty")]) (fun _ => none)).calls = [] :=
  ⟨rfl, C9_empty_scenario_succeeds (JVal.obj [("name", .str "empty")]) (fun _ => none) rfl⟩

/-- Claim C7: once a step fails — by verification failure or by transport
error — the run stops there: the returned trace of transport calls
contains nothing beyond the failing step's own request, whatever the
remaining steps are; and from the scenario's start, a first-step
verification failure means the transport is invoked exactly once. -/
theorem C7_first_failure_stops (transport : PyRequest → Option Response)
    (s1 : JVal) (rest : List JVal) (idx : Nat) (ctx : RespCtx) (calls : List PyRequest)
    (req : PyRequest) :
    (∀ resp err,
      execute_api_call (substitute_response_placeholders s1 ctx) = .ok req →
      transport req = some resp →
      verify_response resp (substitute_response_placeholders s1 ctx) = (false, err) →
      runSteps transport (s1 :: rest) idx ctx calls =
        ⟨false, some idx, some (stepNameOf s1 idx), err, calls ++ [req],
          recordResponse ctx idx (stepNameOf s1 idx) resp⟩) ∧
    (execute_api_call (substitute_response_placeholders s1 ctx) = .ok req →
      transport req = none →
      runSteps transport (s1 :: rest) idx ctx calls =
        ⟨false, some idx, some (stepNameOf s1 idx), some "Request failed: transport error",
          calls ++ [req], ctx⟩) ∧
    (∀ scenario resp err, stepsOf scenario = s1 :: rest →
      execute_api_call (substitute_response_placeholders s1 RespCtx.empty) = .ok req →
      transport req = some resp →
      verify_response resp (substitute_response_placeholders s1 RespCtx.empty) =
        (false, err) →
      (run_scenario scenario transport).calls = [req]) := by
  refine ⟨?_, ?_, ?_⟩
  · intro resp err h1 h2 h3
    simp only [runSteps, h1, h2, h3]
  · intro h1 h2
    simp only [runSteps, h1, h2]
  · intro scenario resp err hs h1 h2 h3
    unfold run_scenario
    rw [hs]
    simp only [runSteps, h1, h2, h3]
    rfl

theorem C7_witness :
    stepsOf c7Scenario = [c7Step1, c7Step2] ∧
    execute_api_call (substitute_response_placeholders c7Step1 RespCtx.empty) =
      .ok c7Req ∧
    c7Transport c7Req = some ⟨200, [], "", none⟩ ∧
    verify_response ⟨200, [], "", none⟩
      (substitute_response_placeholders c7Step1 RespCtx.empty) =
      (false, some "Status Code mismatch: expected 201, got 200") ∧
    (run_scenario c7Scenario c7Transport).calls = [c7Req] :=
  ⟨rfl, rfl, rfl, rfl,
    (C7_first_failure_stops c7Transport c7Step1 [c7Step2] 1 RespCtx.empty [] c7Req).2.2
      c7Scenario ⟨200, [], "", none⟩
      (some "Status Code mismatch: expected 201, got 200") rfl rfl rfl rfl⟩

/-- Claim C8: a step whose action has no (truthy) url makes the request
builder fail with the configuration error `Missing URL in action`, and
the runner propagates any build error as a step failure that carries
the error message (and sends nothing for that step). -/
theorem C8_missing_url (step : JVal)
    (hmethod : pyTruthy (pyGet (pyGetD step "action" (.obj [])) "method") = false ∨
      ∃ m, pyGet (pyGetD step "action" (.obj [])) "method" = .str m)
    (hurl : pyTruthy (pyGet (pyGetD step "action" (.obj [])) "url") = false) :
    execute_api_call step = .error "Missing URL in action" ∧
    (∀ (transport : PyRequest → Option Response) (s1 : JVal) (rest : List JVal)
        (idx : Nat) (ctx : RespCtx) (calls : List PyRequest) (e : String),
      execute_api_call (substitute_response_placeholders s1 ctx) = .error e →
      runSteps transport (s1 :: rest) idx ctx calls =
        ⟨false, some idx, some (stepNameOf s1 idx), some ("Request failed: " ++ e),
          calls, ctx⟩) := by
  constructor
  · simp only [execute_api_call]
    rcases hmethod with hm | ⟨m, hm⟩
    · rw [hm]
      simp only [Bool.false_eq_true, if_false]
      rw [hurl]
      rfl
    · rw [hm]
      by_cases ht : pyTruthy (.str m) = true
      · rw [if_pos ht]
        rw [hurl]
        rfl
      · rw [if_neg ht]
        rw [hurl]
        rfl
  · intro transport s1 rest idx ctx calls e h1
    simp only [runSteps, h1]

theorem C8_witness :
    pyTruthy (pyGet (pyGetD (JVal.obj [("action", .obj [("method", .str "post")])])
      "action" (.obj [])) "url") = false ∧
    execute_api_call (JVal.obj [("action", .obj [("method", .str "post")])]) =
      .error "Missing URL in action" :=
  ⟨rfl,
    (C8_missing_url (JVal.obj [("action", .obj [("method", .str "post")])])
      (Or.inr ⟨"post", rfl⟩) rfl).1⟩

/-! ### C1: the capture round-trip the runner never performs -/

/-- Claim C1: the runner never executes captures.  In the 2-step capture
round-trip scenario the request sent for step 2 still carries the
literal `$X` instead of the captured status 201 — even though the
capture engine would have produced `X = 201` and the runtime
substitution pass would have delivered it type-preserved.  The capture
and runtime-substitution functions are never invoked by
`run_scenario`/`run_scenario_collect`. -/
theorem C1_capture_not_executed_by_runner :
    (run_scenario c1Scenario c1Transport).calls.map PyRequest.url =
      [.str "http://a", .str "$X"] ∧
    (run_scenario c1Scenario c1Transport).ok = true ∧
    (capture_from_response c1Response
      (.obj [("name", .str "X"), ("source", .str "status")])).ok = true ∧
    (capture_from_response c1Response
      (.obj [("name", .str "X"), ("source", .str "status")])).name = .str "X" ∧
    (capture_from_response c1Response
      (.obj [("name", .str "X"), ("source", .str "status")])).value = .num 201 ∧
    substitute_with_runtime (.str "$X") [("X", .num 201)] = .num 201 :=
  ⟨rfl, rfl, rfl, rfl, rfl, rfl⟩

/-- Claim C4: static substitution of a string that is exactly one
`$identifier` placeholder with a known key yields the typed config
value; an exact placeholder with an unknown key is left unchanged; a
placeholder embedded in a larger string is replaced by the `str()`
form of the config value when the key is known, and left as literal
text when it is not (no error in any case: the function is total). -/
theorem C4_static_substitution (cfg : List (String × JVal)) (key t : List Char) (v : JVal)
    (hk1 : key ≠ []) (hk2 : ∀ c ∈ key, isWordChar c = true)
    (ht1 : t ≠ []) (ht2 : ∀ c ∈ t, c ≠ '$') :
    (assocFind (String.mk key) cfg = some v →
      substitute_in_obj (.str (String.mk ('$' :: key))) cfg = v) ∧
    (assocFind (String.mk key) cfg = none →
      substitute_in_obj (.str (String.mk ('$' :: key))) cfg =
        .str (String.mk ('$' :: key))) ∧
    (assocFind (String.mk key) cfg = some v →
      substitute_in_obj (.str (String.mk (t ++ '$' :: key))) cfg =
        .str (String.mk (t ++ (pyStr v).data))) ∧
    (assocFind (String.mk key) cfg = none →
      substitute_in_obj (.str (String.mk (t ++ '$' :: key))) cfg =
        .str (String.mk (t ++ '$' :: key))) := by
  obtain ⟨c, t', rfl⟩ : ∃ c t2, t = c :: t2 := by
    cases t with
    | nil => exact absurd rfl ht1
    | cons a b => exact ⟨a, b, rfl⟩
  have hscanE := scanPH_single [] key (by intro x hx; cases hx) hk1 hk2
  rw [List.nil_append] at hscanE
  have hscanT := scanPH_single (c :: t') key ht2 hk1 hk2
  refine ⟨?_, ?_, ?_, ?_⟩
  · intro hfind
    have hne : cfg.isEmpty = false := by
      cases cfg with
      | nil => simp [assocFind] at hfind
      | cons a b => rfl
    show substStrStatic cfg (String.mk ('$' :: key)) = v
    unfold substStrStatic
    rw [show (String.mk ('$' :: key)).data = '$' :: key from rfl, hscanE]
    simp [hne, hfind]
  · intro hfind
    show substStrStatic cfg (String.mk ('$' :: key)) = .str (String.mk ('$' :: key))
    unfold substStrStatic
    rw [show (String.mk ('$' :: key)).data = '$' :: key from rfl, hscanE]
    simp [hfind]
  · intro hfind
    show substStrStatic cfg (String.mk (c :: t' ++ '$' :: key)) =
      .str (String.mk (c :: t' ++ (pyStr v).data))
    unfold substStrStatic
    rw [show (String.mk (c :: t' ++ '$' :: key)).data = c :: t' ++ '$' :: key from rfl,
      hscanT]
    simp [phRebuild, hfind]
  · intro hfind
    show substStrStatic cfg (String.mk (c :: t' ++ '$' :: key)) =
      .str (String.mk (c :: t' ++ '$' :: key))
    unfold substStrStatic
    rw [show (String.mk (c :: t' ++ '$' :: key)).data = c :: t' ++ '$' :: key from rfl,
      hscanT]
    simp [phRebuild, hfind]

theorem C4_witness :
    assocFind (String.mk "port".data) [("port", JVal.num 8080)] = some (.num 8080) ∧
    substitute_in_obj (.str (String.mk ('$' :: "port".data))) [("port", JVal.num 8080)] =
      .num 8080 ∧
    substitute_in_obj (.str (String.mk (":".data ++ '$' :: "port".data)))
      [("port", JVal.num 8080)] =
      .str (String.mk (":".data ++ (pyStr (JVal.num 8080)).data)) :=
  ⟨rfl,
   (C4_static_substitution [("port", JVal.num 8080)] "port".data ":".data (JVal.num 8080)
      (by decide) (by decide) (by decide) (by decide)).1 rfl,
   (C4_static_substitution [("port", JVal.num 8080)] "port".data ":".data (JVal.num 8080)
      (by decide) (by decide) (by decide) (by decide)).2.2.1 rfl⟩

/-! ### Full-match parsing of the three `$resp[...]` forms -/

theorem stripLit_self (lit : List Char) : stripLit lit lit = some [] := by
  have h := stripLit_pref lit []
  rwa [List.append_nil] at h

theorem parse_status_form (ref : List Char) (h1 : ref ≠ []) (h2 : ∀ c ∈ ref, c ≠ ']') :
    parseRespStatus ("$resp[".data ++ ref ++ "].status".data) = some (String.mk ref) ∧
    parseRespJsonpath ("$resp[".data ++ ref ++ "].status".data) = none := by
  have hsplit : splitAtChar ']' (ref ++ "].status".data) = (ref, "].status".data) :=
    splitAtChar_no_stop ']' ref (".status".data) h2
  have hne : ref.isEmpty = false := by
    cases ref with
    | nil => exact absurd rfl h1
    | cons a b => rfl
  have hjs : stripLit "].jsonpath(".data "].status".data = none := by decide
  constructor
  · simp only [parseRespStatus, matchStatusAt, List.append_assoc, stripLit_pref, hsplit,
      hne, Bool.false_eq_true, if_false, stripLit_self]
  · simp only [parseRespJsonpath, matchJsonpathAt, List.append_assoc, stripLit_pref,
      hsplit, hne, Bool.false_eq_true, if_false, hjs]

theorem parse_text_form (ref : List Char) (h1 : ref ≠ []) (h2 : ∀ c ∈ ref, c ≠ ']') :
    parseRespText ("$resp[".data ++ ref ++ "].text".data) = some (String.mk ref) ∧
    parseRespJsonpath ("$resp[".data ++ ref ++ "].text".data) = none ∧
    parseRespStatus ("$resp[".data ++ ref ++ "].text".data) = none := by
  have hsplit : splitAtChar ']' (ref ++ "].text".data) = (ref, "].text".data) :=
    splitAtChar_no_stop ']' ref (".text".data) h2
  have hne : ref.isEmpty = false := by
    cases ref with
    | nil => exact absurd rfl h1
    | cons a b => rfl
  have hjs : stripLit "].jsonpath(".data "].text".data = none := by decide
  have hst : stripLit "].status".data "].text".data = none := by decide
  refine ⟨?_, ?_, ?_⟩
  · simp only [parseRespText, matchTextAt, List.append_assoc, stripLit_pref, hsplit,
      hne, Bool.false_eq_true, if_false, stripLit_self]
  · simp only [parseRespJsonpath, matchJsonpathAt, List.append_assoc, stripLit_pref,
      hsplit, hne, Bool.false_eq_true, if_false, hjs]
  · simp only [parseRespStatus, matchStatusAt, List.append_assoc, stripLit_pref,
      hsplit, hne, Bool.false_eq_true, if_false, hst]

theorem parse_jsonpath_form (ref path : List Char) (h1 : ref ≠ [])
    (h2 : ∀ c ∈ ref, c ≠ ']') (p1 : path ≠ []) (p2 : ∀ c ∈ path, c ≠ ')') :
    parseRespJsonpath ("$resp[".data ++ ref ++ "].jsonpath(".data ++ path ++ [')']) =
      some (String.mk ref, String.mk path) := by
  have hsplit : splitAtChar ']' (ref ++ ("].jsonpath(".data ++ (path ++ [')']))) =
      (ref, "].jsonpath(".data ++ (path ++ [')'])) :=
    splitAtChar_no_stop ']' ref (".jsonpath(".data ++ (path ++ [')'])) h2
  have hne : ref.isEmpty = false := by
    cases ref with
    | nil => exact absurd rfl h1
    | cons a b => rfl
  have hpne : path.isEmpty = false := by
    cases path with
    | nil => exact absurd rfl p1
    | cons a b => rfl
  have hsplit2 : splitAtChar ')' (path ++ [')']) = (path, [')']) :=
    splitAtChar_no_stop ')' path [] p2
  simp only [parseRespJsonpath, matchJsonpathAt, List.append_assoc, stripLit_pref,
    hsplit, hne, Bool.false_eq_true, if_false, hsplit2, hpne]

/-- Claim C2 fails as stated: with a recorded (and resolvable) 404
response, the full-string `$resp[last].status` placeholder is left
unchanged — the substitution does not yield the status code. -/
theorem C2_counterexample :
    resolve_resp_ref "last" c2FalsyCtx = some c2FalsyResponse ∧
    substitute_response_placeholders (.str "$resp[last].status") c2FalsyCtx =
      .str "$resp[last].status" ∧
    substitute_response_placeholders (.str "$resp[last].status") c2FalsyCtx ≠
      .num c2FalsyResponse.status_code := by
  refine ⟨rfl, rfl, ?_⟩
  intro h
  rw [show substitute_response_placeholders (.str "$resp[last].status") c2FalsyCtx =
    .str "$resp[last].status" from rfl] at h
  exact JVal.noConfusion h

/-- Claim C2 amended: substituting a full-string `$resp[<ref>].status`
placeholder yields the response's integer status code whenever the
resolved response is truthy as a `requests.Response` (status outside
[400, 600)); the reference is resolved as: `last` → most recent
response, an integer literal → 1-based step index, any other token →
step name. -/
theorem C2_amended (ref : String) (ctx : RespCtx) (r : Response)
    (h1 : ref.data ≠ []) (h2 : ∀ c ∈ ref.data, c ≠ ']')
    (hres : resolve_resp_ref ref ctx = some r) (hok : respOk r = true) :
    substitute_response_placeholders (.str ("$resp[" ++ ref ++ "].status")) ctx =
      .num r.status_code ∧
    resolve_resp_ref "last" ctx = ctx.list.getLast? ∧
    (∀ (s : String) (i : Int), s ≠ "last" → pyIntOpt s = some i →
      resolve_resp_ref s ctx = lookupIdx i ctx.byIndex) ∧
    (∀ s : String, s ≠ "last" → pyIntOpt s = none →
      resolve_resp_ref s ctx = lookupName s ctx.byName) := by
  refine ⟨?_, rfl, ?_, ?_⟩
  · have hp := parse_status_form ref.data h1 h2
    show substRespStr ctx ("$resp[" ++ ref ++ "].status") = .num r.status_code
    unfold substRespStr
    rw [show ("$resp[" ++ ref ++ "].status").data =
      "$resp[".data ++ ref.data ++ "].status".data from by
        simp [String.data_append]]
    rw [hp.2, hp.1, show String.mk ref.data = ref from rfl]
    dsimp only
    rw [hres]
    simp only [hok, if_true]
  · intro s i hs hint
    unfold resolve_resp_ref
    rw [if_neg hs, hint]
  · intro s hs hint
    unfold resolve_resp_ref
    rw [if_neg hs, hint]

theorem C2_witness :
    resolve_resp_ref "last" c2OkCtx = some c2OkResponse ∧
    respOk c2OkResponse = true ∧
    substitute_response_placeholders (.str ("$resp[" ++ "last" ++ "].status")) c2OkCtx =
      .num c2OkResponse.status_code :=
  ⟨rfl, rfl, (C2_amended "last" c2OkCtx c2OkResponse (by decide) (by decide) rfl rfl).1⟩

/-- Claim C5: dynamic response-reference substitution is a total function
(it never raises), and an unresolved reference leaves the original
string unchanged: an unknown/unresolvable reference for any of the
three full-string forms, a reference made before any step has executed
(`$resp[last].status` against the empty context), a resolved response
whose body is not JSON, and an invalid jsonpath query are all silent
no-ops. -/
theorem C5_unresolved_noop (ctx : RespCtx) (ref path : String)
    (h1 : ref.data ≠ []) (h2 : ∀ c ∈ ref.data, c ≠ ']')
    (p1 : path.data ≠ []) (p2 : ∀ c ∈ path.data, c ≠ ')') :
    (resolve_resp_ref ref ctx = none →
      substitute_response_placeholders (.str ("$resp[" ++ ref ++ "].status")) ctx =
        .str ("$resp[" ++ ref ++ "].status")) ∧
    (resolve_resp_ref ref ctx = none →
      substitute_response_placeholders (.str ("$resp[" ++ ref ++ "].text")) ctx =
        .str ("$resp[" ++ ref ++ "].text")) ∧
    (resolve_resp_ref ref ctx = none →
      substitute_response_placeholders
        (.str ("$resp[" ++ ref ++ "].jsonpath(" ++ path ++ ")")) ctx =
        .str ("$resp[" ++ ref ++ "].jsonpath(" ++ path ++ ")")) ∧
    (∀ r, resolve_resp_ref ref ctx = some r → respOk r = true → extract_json r = none →
      substitute_response_placeholders
        (.str ("$resp[" ++ ref ++ "].jsonpath(" ++ path ++ ")")) ctx =
        .str ("$resp[" ++ ref ++ "].jsonpath(" ++ path ++ ")")) ∧
    (∀ r body, resolve_resp_ref ref ctx = some r → respOk r = true →
      extract_json r = some body → jparseStr path = none →
      substitute_response_placeholders
        (.str ("$resp[" ++ ref ++ "].jsonpath(" ++ path ++ ")")) ctx =
        .str ("$resp[" ++ ref ++ "].jsonpath(" ++ path ++ ")")) ∧
    substitute_response_placeholders (.str "$resp[last].status") RespCtx.empty =
      .str "$resp[last].status" := by
  have hst := parse_status_form ref.data h1 h2
  have htx := parse_text_form ref.data h1 h2
  have hjp := parse_jsonpath_form ref.data path.data h1 h2 p1 p2
  have hdst : ("$resp[" ++ ref ++ "].status").data =
      "$resp[".data ++ ref.data ++ "].status".data := by simp [String.data_append]
  have hdtx : ("$resp[" ++ ref ++ "].text").data =
      "$resp[".data ++ ref.data ++ "].text".data := by simp [String.data_append]
  have hdjp : ("$resp[" ++ ref ++ "].jsonpath(" ++ path ++ ")").data =
      "$resp[".data ++ ref.data ++ "].jsonpath(".data ++ path.data ++ [')'] := by
    simp [String.data_append]
  refine ⟨?_, ?_, ?_, ?_, ?_, rfl⟩
  · intro hres
    show substRespStr ctx ("$resp[" ++ ref ++ "].status") = _
    unfold substRespStr
    rw [hdst, hst.2, hst.1, show String.mk ref.data = ref from rfl]
    dsimp only
    rw [hres]
  · intro hres
    show substRespStr ctx ("$resp[" ++ ref ++ "].text") = _
    unfold substRespStr
    rw [hdtx, htx.2.1, htx.2.2, htx.1, show String.mk ref.data = ref from rfl]
    dsimp only
    rw [hres]
  · intro hres
    show substRespStr ctx ("$resp[" ++ ref ++ "].jsonpath(" ++ path ++ ")") = _
    unfold substRespStr
    rw [hdjp, hjp, show String.mk ref.data = ref from rfl]
    dsimp only
    rw [hres]
  · intro r hres hok hbody
    show substRespStr ctx ("$resp[" ++ ref ++ "].jsonpath(" ++ path ++ ")") = _
    unfold substRespStr
    rw [hdjp, hjp, show String.mk ref.data = ref from rfl]
    dsimp only
    rw [hres]
    simp only [hok, if_true, hbody]
  · intro r body hres hok hbody hparse
    show substRespStr ctx ("$resp[" ++ ref ++ "].jsonpath(" ++ path ++ ")") = _
    unfold substRespStr
    rw [hdjp, hjp, show String.mk ref.data = ref from rfl,
      show String.mk path.data = path from rfl]
    dsimp only
    rw [hres]
    simp only [hok, if_true, hbody, hparse]

theorem C5_witness :
    resolve_resp_ref "missing" RespCtx.empty = none ∧
    substitute_response_placeholders (.str ("$resp[" ++ "missing" ++ "].status"))
      RespCtx.empty = .str ("$resp[" ++ "missing" ++ "].status") :=
  ⟨rfl,
    (C5_unresolved_noop RespCtx.empty "missing" "$.a" (by decide) (by decide)
      (by decide) (by decide)).1 rfl⟩

/-! ### C3: verifier evaluation order and directive precedence -/

/-- The assertion loop stops at the first failing assertion: if every
assertion before `a` passes and `a` fails, the result is `a`'s message
whatever follows. -/
theorem verifyAssertions_first_fail (body : JVal) :
    ∀ (pre : List JVal) (a : JVal) (post : List JVal) (e : String),
      (∀ x ∈ pre, checkAssertion body x = none) → checkAssertion body a = some e →
      verifyAssertions body (pre ++ a :: post) = some e
  | [], a, post, e, _, ha => by
    simp only [List.nil_append, verifyAssertions, ha]
  | x :: xs, a, post, e, hpre, ha => by
    have hx := hpre x (List.mem_cons_self x xs)
    have ih := verifyAssertions_first_fail body xs a post e
      (fun y hy => hpre y (List.mem_cons_of_mem x hy)) ha
    simp only [List.cons_append, verifyAssertions, hx, List.append_eq, ih]

/-- Claim C3: `verify_response` checks status-code equality first — a
mismatch short-circuits everything with a message naming expected and
actual — then evaluates the assertions in order, stopping at the first
failing one; inside one assertion the directives are dispatched in the
order `exists`, `not_null`, `contains`, `expected_value` from the
assertion's fields, the first applicable directive alone determines
the outcome (the later directives' presence and values are ignored),
and an assertion with no directive passes exactly when the path has at
least one match. -/
theorem C3_verifier_order (response : Response) :
    (∀ (step : JVal) (es : JVal), es ≠ .null →
      pyGet (pyGetD step "verification" (.obj [])) "status_code" = es →
      pyEq (.num response.status_code) es = false →
      verify_response response step =
        (false, some ("Status Code mismatch: expected " ++ pyStr es ++ ", got " ++
          toString response.status_code))) ∧
    (∀ (body : JVal) (pre : List JVal) (a : JVal) (post : List JVal) (e : String),
      (∀ x ∈ pre, checkAssertion body x = none) → checkAssertion body a = some e →
      verifyAssertions body (pre ++ a :: post) = some e) ∧
    (∀ (verification body : JVal) (pre : List JVal) (a : JVal) (post : List JVal)
        (e : String),
      pyGet verification "status_code" = .null →
      pyGet verification "json_assertions" = .arr (pre ++ a :: post) →
      extract_json response = some body →
      (∀ x ∈ pre, checkAssertion body x = none) → checkAssertion body a = some e →
      verify_response response (.obj [("verification", verification)]) =
        (false, some e)) ∧
    (∀ (body a : JVal),
      checkAssertion body a =
        checkDirectives body (pyGet a "path")
          (hasKJ a "exists") (pyGet a "exists")
          (pyTruthy (pyGet a "not_null"))
          (hasKJ a "contains") (pyGet a "contains")
          (hasKJ a "expected_value") (pyGet a "expected_value")) ∧
    (∀ (body p ev : JVal) (n1 : Bool) (c1 : Bool) (cv1 : JVal) (e1 : Bool) (ev1 : JVal)
        (n2 : Bool) (c2 : Bool) (cv2 : JVal) (e2 : Bool) (ev2 : JVal),
      checkDirectives body p true ev n1 c1 cv1 e1 ev1 =
        checkDirectives body p true ev n2 c2 cv2 e2 ev2) ∧
    (∀ (body p : JVal) (x1 : JVal) (c1 : Bool) (cv1 : JVal) (e1 : Bool) (ev1 : JVal)
        (x2 : JVal) (c2 : Bool) (cv2 : JVal) (e2 : Bool) (ev2 : JVal),
      checkDirectives body p false x1 true c1 cv1 e1 ev1 =
        checkDirectives body p false x2 true c2 cv2 e2 ev2) ∧
    (∀ (body p cv : JVal) (x1 : JVal) (e1 : Bool) (ev1 : JVal)
        (x2 : JVal) (e2 : Bool) (ev2 : JVal),
      checkDirectives body p false x1 false true cv e1 ev1 =
        checkDirectives body p false x2 false true cv e2 ev2) ∧
    (∀ (body p ev : JVal) (x1 : JVal) (cv1 : JVal) (x2 cv2 : JVal),
      checkDirectives body p false x1 false false cv1 true ev =
        checkDirectives body p false x2 false false cv2 true ev) ∧
    (∀ (body p : JVal) (x1 cv1 ev1 : JVal) (expr : List JSeg),
      pyTruthy p = true → jsonpath_parse p = some expr →
      (checkDirectives body p false x1 false false cv1 false ev1 = none ↔
        jfind expr body ≠ [])) := by
  refine ⟨?_, verifyAssertions_first_fail, ?_, fun _ _ => rfl,
    fun _ _ _ _ _ _ _ _ _ _ _ _ _ => rfl, fun _ _ _ _ _ _ _ _ _ _ _ _ => rfl,
    fun _ _ _ _ _ _ _ _ _ => rfl, fun _ _ _ _ _ _ _ => rfl, ?_⟩
  · intro step es hne hes hpe
    simp only [verify_response]
    rw [hes]
    cases es with
    | null => exact absurd rfl hne
    | bool b => dsimp only; rw [hpe]; rfl
    | num n => dsimp only; rw [hpe]; rfl
    | str s => dsimp only; rw [hpe]; rfl
    | arr xs => dsimp only; rw [hpe]; rfl
    | obj kvs => dsimp only; rw [hpe]; rfl
  · intro verification body pre a post e hstat hassert hbody hpre ha
    have hvget : pyGetD (.obj [("verification", verification)]) "verification"
        (.obj []) = verification := rfl
    simp only [verify_response, hvget]
    rw [hstat]
    simp only [verifyAssertionsPart]
    rw [hassert]
    have hnem : (pre ++ a :: post).isEmpty = false := by cases pre <;> rfl
    rw [hnem]
    simp only [Bool.false_eq_true, if_false]
    rw [hbody]
    dsimp only
    rw [verifyAssertions_first_fail body pre a post e hpre ha]
  · intro body p x1 cv1 ev1 expr hpath hparse
    simp only [checkDirectives]
    rw [hpath, hparse]
    simp only [Bool.not_true, Bool.false_eq_true, if_false]
    rcases hj : jfind expr body with _ | ⟨m, ms⟩
    · simp
    · simp

theorem C3_witness :
    pyGet (pyGetD (JVal.obj [("verification", .obj [("status_code", .num 201)])])
      "verification" (.obj [])) "status_code" = .num 201 ∧
    pyEq (.num (200 : Int)) (.num 201) = false ∧
    verify_response ⟨200, [], "", none⟩
      (JVal.obj [("verification", .obj [("status_code", .num 201)])]) =
      (false, some "Status Code mismatch: expected 201, got 200") :=
  ⟨rfl, rfl,
    (C3_verifier_order ⟨200, [], "", none⟩).1
      (JVal.obj [("verification", .obj [("status_code", .num 201)])])
      (.num 201) (fun h => JVal.noConfusion h) rfl rfl⟩

/-! ### C10: a falsy `not_null` directive is not applicable -/

theorem assocFind_erase_ne (k k2 : String) (h : k2 ≠ k) :
    ∀ d : List (String × JVal), assocFind k2 (eraseKey k d) = assocFind k2 d
  | [] => rfl
  | (k3, v) :: rest => by
    by_cases hk : k3 = k
    · have hne : k3 ≠ k2 := fun h3 => h (h3 ▸ hk)
      rw [eraseKey, if_pos hk, assocFind_erase_ne k k2 h rest, assocFind, if_neg hne]
    · rw [eraseKey, if_neg hk, assocFind, assocFind]
      by_cases h3 : k3 = k2
      · rw [if_pos h3, if_pos h3]
      · rw [if_neg h3, if_neg h3, assocFind_erase_ne k k2 h rest]

theorem assocFind_erase_self (k : String) :
    ∀ d : List (String × JVal), assocFind k (eraseKey k d) = none
  | [] => rfl
  | (k3, v) :: rest => by
    by_cases hk : k3 = k
    · rw [eraseKey, if_pos hk, assocFind_erase_self k rest]
    · rw [eraseKey, if_neg hk, assocFind, if_neg hk, assocFind_erase_self k rest]

/-- Claim C10: when an assertion's `not_null` directive is present but
holds a falsy value, the verifier does not treat `not_null` as the
applicable directive — the assertion evaluates exactly as if the
`not_null` key were absent, falling through to `contains`,
`expected_value`, or the default presence check. -/
theorem C10_falsy_not_null_falls_through (body : JVal) (kvs : List (String × JVal))
    (hpresent : hasK "not_null" kvs = true)
    (hfalsy : pyTruthy (pyGet (.obj kvs) "not_null") = false) :
    checkAssertion body (.obj kvs) =
      checkAssertion body (.obj (eraseKey "not_null" kvs)) := by
  have h1 : ∀ k : String, k ≠ "not_null" →
      pyGet (.obj (eraseKey "not_null" kvs)) k = pyGet (.obj kvs) k := by
    intro k hk
    simp only [pyGet, pyGetD, assocFind_erase_ne "not_null" k hk kvs]
  have h2 : ∀ k : String, k ≠ "not_null" →
      hasKJ (.obj (eraseKey "not_null" kvs)) k = hasKJ (.obj kvs) k := by
    intro k hk
    simp only [hasKJ, hasK, assocFind_erase_ne "not_null" k hk kvs]
  have h3 : pyTruthy (pyGet (.obj (eraseKey "not_null" kvs)) "not_null") = false := by
    simp only [pyGet, pyGetD, assocFind_erase_self "not_null" kvs, Option.getD]
    rfl
  unfold checkAssertion
  rw [h1 "path" (by decide), h2 "exists" (by decide), h1 "exists" (by decide),
    h2 "contains" (by decide), h1 "contains" (by decide),
    h2 "expected_value" (by decide), h1 "expected_value" (by decide), h3, hfalsy]

theorem C10_witness :
    hasK "not_null" [("path", JVal.str "$.a"), ("not_null", JVal.bool false),
      ("expected_value", JVal.num 1)] = true ∧
    pyTruthy (pyGet (.obj [("path", JVal.str "$.a"), ("not_null", JVal.bool false),
      ("expected_value", JVal.num 1)]) "not_null") = false ∧
    checkAssertion (.obj [("a", .num 2)])
      (.obj [("path", JVal.str "$.a"), ("not_null", JVal.bool false),
        ("expected_value", JVal.num 1)]) =
      checkAssertion (.obj [("a", .num 2)])
        (.obj (eraseKey "not_null" [("path", JVal.str "$.a"),
          ("not_null", JVal.bool false), ("expected_value", JVal.num 1)])) :=
  ⟨rfl, rfl,
    C10_falsy_not_null_falls_through (.obj [("a", .num 2)])
      [("path", JVal.str "$.a"), ("not_null", JVal.bool false),
        ("expected_value", JVal.num 1)] rfl rfl⟩

/-! ### C6: the runtime context -/

/-- Claim C6 fails as stated: after both steps of a scenario whose two
steps share the name `a` complete, step 1's response is still at index
1 (status 200), but looking it up by its step name yields step 2's
response (status 201) — the by-name binding was replaced, so the three
lookups do not agree for step 1. -/
theorem C6_counterexample :
    (run_scenario c6Scenario c6Transport).ok = true ∧
    (lookupIdx 1 (run_scenario c6Scenario c6Transport).ctx.byIndex).map
      Response.status_code = some 200 ∧
    (resolve_resp_ref "a" (run_scenario c6Scenario c6Transport).ctx).map
      Response.status_code = some 201 ∧
    (lookupName "a" (run_scenario c6Scenario c6Transport).ctx.byName).map
      Response.status_code = some 201 :=
  ⟨rfl, rfl, rfl, rfl⟩

/-- Claim C6 amended: the ordered response log and the index map are
append-only — recording a response appends to the log, binds the fresh
index, and preserves every earlier index binding and every name
binding other than the recorded step's name and the reserved `last`
key (which is deliberately rebound to the newest response).  Provided
the recorded step's name is not `last` and not an integer literal, the
lookups by that name, by the step's index, and via `last` all yield
the just-recorded response. -/
theorem C6_amended (ctx : RespCtx) (idx : Nat) (name : String) (r : Response)
    (hname : name ≠ "last") (hint : pyIntOpt name = none) :
    (recordResponse ctx idx name r).list = ctx.list ++ [r] ∧
    (∀ (j : Int) (rj : Response), j ≠ (idx : Int) →
      lookupIdx j ctx.byIndex = some rj →
      lookupIdx j (recordResponse ctx idx name r).byIndex = some rj) ∧
    (∀ (n : String) (rn : Response), n ≠ name → n ≠ "last" →
      lookupName n ctx.byName = some rn →
      lookupName n (recordResponse ctx idx name r).byName = some rn) ∧
    resolve_resp_ref name (recordResponse ctx idx name r) = some r ∧
    lookupIdx (idx : Int) (recordResponse ctx idx name r).byIndex = some r ∧
    resolve_resp_ref "last" (recordResponse ctx idx name r) = some r := by
  refine ⟨rfl, ?_, ?_, ?_, ?_, ?_⟩
  · intro j rj hj hold
    show lookupIdx j (((idx : Int), r) :: ctx.byIndex) = some rj
    rw [lookupIdx, if_neg (fun h => hj h.symm), hold]
  · intro n rn hn1 hn2 hold
    show lookupName n (("last", r) :: (name, r) :: ctx.byName) = some rn
    rw [lookupName, if_neg (fun h => hn2 h.symm), lookupName,
      if_neg (fun h => hn1 h.symm), hold]
  · unfold resolve_resp_ref
    rw [if_neg hname, hint]
    show lookupName name (("last", r) :: (name, r) :: ctx.byName) = some r
    rw [lookupName, if_neg (fun h => hname h.symm), lookupName, if_pos rfl]
  · show lookupIdx (idx : Int) (((idx : Int), r) :: ctx.byIndex) = some r
    rw [lookupIdx, if_pos rfl]
  · unfold resolve_resp_ref
    rw [if_pos rfl]
    show (ctx.list ++ [r]).getLast? = some r
    exact List.getLast?_concat ctx.list

theorem C6_witness :
    ("a" : String) ≠ "last" ∧
    pyIntOpt "a" = none ∧
    resolve_resp_ref "a" (recordResponse RespCtx.empty 1 "a" ⟨200, [], "", none⟩) =
      some ⟨200, [], "", none⟩ ∧
    lookupIdx 1 (recordResponse RespCtx.empty 1 "a" ⟨200, [], "", none⟩).byIndex =
      some ⟨200, [], "", none⟩ ∧
    resolve_resp_ref "last" (recordResponse RespCtx.empty 1 "a" ⟨200, [], "", none⟩) =
      some ⟨200, [], "", none⟩ :=
  ⟨by decide, rfl,
    (C6_amended RespCtx.empty 1 "a" ⟨200, [], "", none⟩ (by decide) rfl).2.2.2.1,
    (C6_amended RespCtx.empty 1 "a" ⟨200, [], "", none⟩ (by decide) rfl).2.2.2.2.1,
    (C6_amended RespCtx.empty 1 "a" ⟨200, [], "", none⟩ (by decide) rfl).2.2.2.2.2⟩

end ApiTester
